import Mathlib

/-!
# Payroll computation engine of the smart-hr-system repository: a formal model

This file is a shallow embedding, in Lean 4, of the payroll computation core of
a Django HR application (`hr_app/models.py`, `hr_app/views.py`, `hr_app/forms.py`):

* the `Payroll` model with its `calculate_epf`, `calculate_total_earnings`,
  `calculate_total_deductions` methods and its overridden `save`;
* the `(employee, month, year)` uniqueness constraint of the store;
* the `generate_bulk_payroll` view (per-employee leave aggregation, daily rate,
  allowances, creation loop with its `except IntegrityError` handler);
* the server-side validation actually performed by `PayrollForm`.

The CPython numeric semantics relevant to this code are modelled faithfully:
values flowing through the payroll arithmetic are Python `int`s, `float`s or
`decimal.Decimal`s, and the three behave differently:

* `int` arithmetic is exact;
* `float` arithmetic is IEEE-754 binary64: every result is rounded to 53
  significant bits, round-to-nearest, ties to even (we carry the exact rational
  value of the double; overflow and subnormals are irrelevant at payroll
  magnitudes and are not modelled);
* `Decimal` arithmetic uses the default `decimal` context: 28 significant
  decimal digits, round-half-even;
* mixing `Decimal` with `float` in `+ - * /` raises `TypeError` (the `decimal`
  module refuses implicit float contact), while `int` mixes with either, and
  comparisons (`min`) work across all three kinds and return one of the
  original objects.

Operations therefore return `Option`: `none` is an uncaught Python exception
(`TypeError`, `ZeroDivisionError`); the store layer uses `Except` to separate
the database `IntegrityError` of the uniqueness constraint from such
exceptions, because `generate_bulk_payroll` catches only `IntegrityError`.
-/

namespace SmartHR

/-! ## Correct rounding: binary64 floats and 28-digit Decimals

`roundHalfEven q` is the integer nearest to `q`, ties going to the even
integer.  `ilogQ b q` is `⌊log_b q⌋` for `q > 0` (fuel-based structural
recursion so that the kernel can evaluate it).  `roundPrec b p q` rounds `q`
to a mantissa of `p + 1` base-`b` digits: with `b = 2, p = 52` this is IEEE-754
binary64 round-to-nearest-even, with `b = 10, p = 27` it is the default
`decimal.Decimal` context (28 significant digits, `ROUND_HALF_EVEN`). -/

/-- `⌊q⌋` for a rational (the denominator is positive). -/
def ratFloor (q : ℚ) : ℤ := q.num.fdiv (q.den : ℤ)

def roundHalfEven (q : ℚ) : ℤ :=
  let f : ℤ := ratFloor q
  let r : ℚ := q - f
  if r < (1 : ℚ) / 2 then f
  else if (1 : ℚ) / 2 < r then f + 1
  else if f % 2 = 0 then f else f + 1

/-- `⌊log₂ n⌋` on naturals by repeated halving, structurally on a fuel
argument. -/
def natLog2F : ℕ → ℕ → ℕ
  | 0, _ => 0
  | fuel + 1, n => if n ≤ 1 then 0 else natLog2F fuel (n / 2) + 1

/-- `⌊log₂ n⌋` (`0` at `0`).  The fixed fuel `1100` is exact up to `2^1100`,
far beyond IEEE binary64 overflow, which the model excludes anyway. -/
def natLog2 (n : ℕ) : ℕ := natLog2F 1100 n

/-- `(b : ℚ) ^ (k : ℤ)` computed directly from natural-number powers. -/
def qpow (b : ℕ) (k : ℤ) : ℚ :=
  if 0 ≤ k then ((b ^ k.toNat : ℕ) : ℚ) else 1 / ((b ^ (-k).toNat : ℕ) : ℚ)

/-- `⌊log₂ q⌋` for `q > 0` (junk on `q ≤ 0`, never used there): with
`num = 2^a·α`, `den = 2^b·β`, `α, β ∈ [1, 2)`, the floor is `a - b` or
`a - b - 1`, settled by one comparison. -/
def ilog2Q (q : ℚ) : ℤ :=
  let e0 : ℤ := (natLog2 q.num.natAbs : ℤ) - (natLog2 q.den : ℤ)
  if qpow 2 e0 ≤ q then e0 else e0 - 1

/-- `⌊log₁₀ q⌋` for `q > 0`: `log₁₀ q` lies in `[t·log₁₀ 2, (t+1)·log₁₀ 2)`
for `t = ⌊log₂ q⌋`, and `30103/100000` approximates `log₁₀ 2` to `5·10⁻⁹`,
so the floor is among four candidates around the estimate, settled by
comparisons. -/
def ilog10Q (q : ℚ) : ℤ :=
  let t : ℤ := ilog2Q q
  let e0 : ℤ := (t * 30103).fdiv 100000
  if qpow 10 (e0 + 2) ≤ q then e0 + 2
  else if qpow 10 (e0 + 1) ≤ q then e0 + 1
  else if qpow 10 e0 ≤ q then e0
  else if qpow 10 (e0 - 1) ≤ q then e0 - 1
  else e0 - 2

/-- Round `q` to `p + 1` significant base-`b` digits, round-half-even
(`ilog` must be `⌊log_b ·⌋` on positives). -/
def roundSig (b : ℕ) (p : ℤ) (ilog : ℚ → ℤ) (q : ℚ) : ℚ :=
  if q = 0 then 0
  else
    let s : ℚ := |q|
    let e : ℤ := ilog s
    let m : ℤ := roundHalfEven (s * qpow b (p - e))
    (if q < 0 then (-1 : ℚ) else 1) * (m : ℚ) * qpow b (e - p)

/-- IEEE-754 binary64 rounding (round to nearest, ties to even; overflow and
subnormals are outside the modelled magnitude range). -/
def roundDouble (q : ℚ) : ℚ := roundSig 2 52 ilog2Q q

/-- `decimal.Decimal` default-context rounding: 28 significant digits. -/
def roundDec (q : ℚ) : ℚ := roundSig 10 27 ilog10Q q

/-! ## Python numeric values

A `PVal` is a Python number as it occurs in the payroll code: an `int`, a
`float` (carrying the exact rational value of the IEEE double) or a `Decimal`
(carrying its exact value).  The binary operations implement CPython's
coercion rules; `none` is a raised exception. -/

inductive PVal where
  | pint (n : ℤ)
  | pfloat (q : ℚ)
  | pdec (q : ℚ)
deriving DecidableEq, Repr

/-- The numeric value of a Python number (used by comparisons, which are exact
across all three kinds). -/
def PVal.val : PVal → ℚ
  | .pint n => (n : ℚ)
  | .pfloat q => q
  | .pdec q => q

/-- `True` exactly for `Decimal` objects (`isinstance(x, Decimal)`). -/
def PVal.isDec : PVal → Bool
  | .pdec _ => true
  | _ => false

/-- Python `+` on numbers. `Decimal + float` (either order) raises `TypeError`. -/
def pyAdd : PVal → PVal → Option PVal
  | .pint a, .pint b => some (.pint (a + b))
  | .pint a, .pfloat q => some (.pfloat (roundDouble (roundDouble (a : ℚ) + q)))
  | .pfloat q, .pint b => some (.pfloat (roundDouble (q + roundDouble (b : ℚ))))
  | .pfloat p, .pfloat q => some (.pfloat (roundDouble (p + q)))
  | .pint a, .pdec q => some (.pdec (roundDec ((a : ℚ) + q)))
  | .pdec q, .pint b => some (.pdec (roundDec (q + (b : ℚ))))
  | .pdec p, .pdec q => some (.pdec (roundDec (p + q)))
  | _, _ => none

/-- Python `-` on numbers. -/
def pySub : PVal → PVal → Option PVal
  | .pint a, .pint b => some (.pint (a - b))
  | .pint a, .pfloat q => some (.pfloat (roundDouble (roundDouble (a : ℚ) - q)))
  | .pfloat q, .pint b => some (.pfloat (roundDouble (q - roundDouble (b : ℚ))))
  | .pfloat p, .pfloat q => some (.pfloat (roundDouble (p - q)))
  | .pint a, .pdec q => some (.pdec (roundDec ((a : ℚ) - q)))
  | .pdec q, .pint b => some (.pdec (roundDec (q - (b : ℚ))))
  | .pdec p, .pdec q => some (.pdec (roundDec (p - q)))
  | _, _ => none

/-- Python `*` on numbers. -/
def pyMul : PVal → PVal → Option PVal
  | .pint a, .pint b => some (.pint (a * b))
  | .pint a, .pfloat q => some (.pfloat (roundDouble (roundDouble (a : ℚ) * q)))
  | .pfloat q, .pint b => some (.pfloat (roundDouble (q * roundDouble (b : ℚ))))
  | .pfloat p, .pfloat q => some (.pfloat (roundDouble (p * q)))
  | .pint a, .pdec q => some (.pdec (roundDec ((a : ℚ) * q)))
  | .pdec q, .pint b => some (.pdec (roundDec (q * (b : ℚ))))
  | .pdec p, .pdec q => some (.pdec (roundDec (p * q)))
  | _, _ => none

/-- Python `/` (true division).  `int / int` produces a correctly rounded
`float`; division by zero raises. -/
def pyDiv : PVal → PVal → Option PVal
  | .pint a, .pint b =>
      if b = 0 then none else some (.pfloat (roundDouble ((a : ℚ) / (b : ℚ))))
  | .pint a, .pfloat q =>
      if q = 0 then none else some (.pfloat (roundDouble (roundDouble (a : ℚ) / q)))
  | .pfloat p, .pint b =>
      if b = 0 then none else some (.pfloat (roundDouble (p / roundDouble (b : ℚ))))
  | .pfloat p, .pfloat q =>
      if q = 0 then none else some (.pfloat (roundDouble (p / q)))
  | .pint a, .pdec q =>
      if q = 0 then none else some (.pdec (roundDec ((a : ℚ) / q)))
  | .pdec p, .pint b =>
      if b = 0 then none else some (.pdec (roundDec (p / (b : ℚ))))
  | .pdec p, .pdec q =>
      if q = 0 then none else some (.pdec (roundDec (p / q)))
  | _, _ => none

/-- Python `min(a, b)`: comparison is exact across kinds and one of the two
original objects is returned (`b` only when strictly smaller). -/
def pyMin (a b : PVal) : PVal := if b.val < a.val then b else a

/-- The exact value of the Python float literal `0.12`
(`Payroll.EMPLOYEE_CONTRIBUTION`, models.py line 42). -/
def EMPLOYEE_CONTRIBUTION : ℚ := roundDouble (12 / 100)

/-- The exact value of the Python float literal `0.133`
(`Payroll.EMPLOYER_CONTRIBUTION`, models.py line 43). -/
def EMPLOYER_CONTRIBUTION : ℚ := roundDouble (133 / 1000)

/-! ## The data model (`hr_app/models.py`)

Calendar dates as stored in `DateField`s (`datetime.date`: year ≥ 1). -/

structure NDate where
  year : ℕ
  month : ℕ
  day : ℕ
deriving DecidableEq, Repr

/-- Gregorian leap year, as in Python's `calendar.isleap`. -/
def isLeapN (y : ℕ) : Bool :=
  (y % 4 == 0 && y % 100 != 0) || y % 400 == 0

/-- Number of days of month `m` of year `y`; `0` outside `1..12` (reachable
only where the source guards against it).  This is
`calendar.monthrange(y, m)[1]`. -/
def daysInMonthN (y m : ℕ) : ℕ :=
  match m with
  | 1 | 3 | 5 | 7 | 8 | 10 | 12 => 31
  | 4 | 6 | 9 | 11 => 30
  | 2 => if isLeapN y then 29 else 28
  | _ => 0

/-- Days in the months of year `y` strictly before month `m`. -/
def daysBeforeMonthN (y m : ℕ) : ℕ :=
  (List.range m).foldl (fun acc k => acc + daysInMonthN y k) 0

/-- Proleptic-Gregorian day number of a date (as in `datetime.date.toordinal`):
difference of two `ordinalN`s is the `timedelta` of date subtraction, in days. -/
def ordinalN (d : NDate) : ℕ :=
  365 * (d.year - 1) + (d.year - 1) / 4 - (d.year - 1) / 100 + (d.year - 1) / 400
    + daysBeforeMonthN d.year d.month + d.day

/-- `(end_date - start_date).days` for whole dates. -/
def daysBetween (a b : NDate) : ℤ := (ordinalN b : ℤ) - (ordinalN a : ℤ)

/-- The `Employee` model, restricted to the fields the payroll core reads
(`salary` is a `DecimalField`; identity stands for the foreign key). -/
structure EmployeeRec where
  id : ℕ
  salary : PVal
deriving DecidableEq, Repr

/-- The `LeaveRequest` model, restricted to the fields the payroll core reads:
`status ∈ {"Pending", "Approved", "Rejected"}`, dates are an inclusive span. -/
structure LeaveReq where
  employeeId : ℕ
  start_date : NDate
  end_date : NDate
  status : String
deriving DecidableEq, Repr

/-- The `Payroll` model (models.py lines 41-99).  Monetary fields are `PVal`s
because Python model instances carry whatever numeric object was assigned:
`Decimal`s when loaded from the database or a validated form, plain `int`s
for the unsaved-instance field defaults shown here (Django materialises a
non-callable `default=` verbatim on new instances).  `net_salary` is
`editable=False` and is overwritten by `save`; its pre-save value is the
placeholder `0`. -/
structure Payroll where
  employeeId : ℕ
  month : String
  year : ℤ
  basic_salary : PVal
  house_rent_allowance : PVal := .pint 0
  travel_allowance : PVal := .pint 0
  medical_allowance : PVal := .pint 0
  special_allowance : PVal := .pint 0
  overtime_hours : PVal := .pint 0
  overtime_rate : PVal := .pint 0
  professional_tax : PVal := .pint 200
  income_tax : PVal := .pint 0
  other_deductions : PVal := .pint 0
  net_salary : PVal := .pint 0
  paid : Bool := false
  payment_date : Option NDate := none
deriving DecidableEq, Repr

/-- `Payroll.calculate_epf` (models.py lines 67-72):
`basic_for_pf = min(self.basic_salary, 15000)` — note the literal `15000` is a
Python `int`, so the capped branch yields an `int` —
then `employee_pf = basic_for_pf * 0.12` and
`employer_pf = basic_for_pf * 0.133` with the *float* class constants. -/
def Payroll.calculate_epf (p : Payroll) : Option (PVal × PVal) :=
  let basic_for_pf := pyMin p.basic_salary (.pint 15000)
  match pyMul basic_for_pf (.pfloat EMPLOYEE_CONTRIBUTION) with
  | none => none
  | some employee_pf =>
    match pyMul basic_for_pf (.pfloat EMPLOYER_CONTRIBUTION) with
    | none => none
    | some employer_pf => some (employee_pf, employer_pf)

/-- `Payroll.calculate_total_earnings` (models.py lines 74-79):
`overtime_pay = overtime_hours * overtime_rate`, then the left-associated sum
`basic + hra + travel + medical + special + overtime_pay`. -/
def Payroll.calculate_total_earnings (p : Payroll) : Option PVal :=
  match pyMul p.overtime_hours p.overtime_rate with
  | none => none
  | some overtime_pay =>
    match pyAdd p.basic_salary p.house_rent_allowance with
    | none => none
    | some s1 =>
      match pyAdd s1 p.travel_allowance with
      | none => none
      | some s2 =>
        match pyAdd s2 p.medical_allowance with
        | none => none
        | some s3 =>
          match pyAdd s3 p.special_allowance with
          | none => none
          | some s4 => pyAdd s4 overtime_pay

/-- `Payroll.calculate_total_deductions` (models.py lines 81-84):
`employee_pf + professional_tax + income_tax + other_deductions`
(left-associated; `employer_pf` is discarded). -/
def Payroll.calculate_total_deductions (p : Payroll) : Option PVal :=
  match p.calculate_epf with
  | none => none
  | some (employee_pf, _employer_pf) =>
    match pyAdd employee_pf p.professional_tax with
    | none => none
    | some s1 =>
      match pyAdd s1 p.income_tax with
      | none => none
      | some s2 => pyAdd s2 p.other_deductions

/-- `Payroll.save` (models.py lines 86-96), in the source's order:
first `net_salary = total_earnings - total_deductions` is computed from the
fields as they stand, and only *afterwards* `overtime_rate` is set to
`basic_salary / 200` when falsy (zero).  `none` is a raised exception: the
record is not persisted. -/
def Payroll.save (p : Payroll) : Option Payroll :=
  match p.calculate_total_earnings with
  | none => none
  | some total_earnings =>
    match p.calculate_total_deductions with
    | none => none
    | some total_deductions =>
      match pySub total_earnings total_deductions with
      | none => none
      | some ns =>
        let p1 := { p with net_salary := ns }
        if p1.overtime_rate.val = (0 : ℚ) then
          match pyDiv p1.basic_salary (.pint 200) with
          | none => none
          | some r => some { p1 with overtime_rate := r }
        else some p1

/-! ## The persisted store and its uniqueness constraint -/

/-- The persisted `Payroll` rows. -/
abbrev Store := List Payroll

/-- Two rows agree on the `unique_together = ['employee', 'month', 'year']`
key (models.py line 65). -/
def sameKeyB (a b : Payroll) : Bool :=
  a.employeeId == b.employeeId && a.month == b.month && a.year == b.year

/-- `Payroll.objects.filter(employee=…, month=…, year=…).exists()`
(views.py line 295). -/
def existsKeyB (s : Store) (eid : ℕ) (m : String) (y : ℤ) : Bool :=
  s.any fun r => r.employeeId == eid && r.month == m && r.year == y

/-- Outcomes of a `Payroll.objects.create(...)`: an uncaught Python exception
raised while computing the record (`exc`, here always the `TypeError` of
`Decimal`/`float` contact), or the database `IntegrityError` of the uniqueness
constraint. -/
inductive CreateErr where
  | exc
  | integrity
deriving DecidableEq, Repr

/-- `Payroll.objects.create(...)`: run the model `save` (which computes the
derived fields and may raise), then insert, subject to the
`(employee, month, year)` uniqueness constraint.  On any error the store is
untouched. -/
def dbCreate (s : Store) (p : Payroll) : Except CreateErr Store :=
  match p.save with
  | none => .error .exc
  | some p1 =>
    if existsKeyB s p1.employeeId p1.month p1.year then .error .integrity
    else .ok (s ++ [p1])

/-! ## The bulk generator (`generate_bulk_payroll`, views.py lines 274-350) -/

/-- `MONTH_CHOICES` (forms.py lines 6-11), first components. -/
def MONTH_CHOICES : List String :=
  ["January", "February", "March", "April", "May", "June",
   "July", "August", "September", "October", "November", "December"]

/-- `month_num = list(form.fields['month'].choices).index((month, month)) + 1`
(views.py line 289). -/
def monthNum (month : String) : ℤ := (MONTH_CHOICES.indexOf month : ℤ) + 1

/-- `calendar.monthrange(year, month_num)[1]` (views.py line 292). -/
def daysInMonthZ (year mn : ℤ) : ℤ := (daysInMonthN year.toNat mn.toNat : ℤ)

/-- The leave aggregation of views.py lines 301-317: over the employee's
`Approved` requests whose `start_date` falls in the target month and year, sum
`end_date - start_date` (a `timedelta`), then take `.days` (`0` when there are
no matching rows). -/
def unpaidLeaveDays (leaves : List LeaveReq) (eid : ℕ) (mn y : ℤ) : ℤ :=
  ((leaves.filter fun l =>
      l.employeeId == eid && l.status == "Approved" &&
      ((l.start_date.month : ℤ) == mn) && ((l.start_date.year : ℤ) == y)).map
    fun l => daysBetween l.start_date l.end_date).sum

/-- views.py lines 320-323: `daily_rate = Decimal('0')` when the month has no
days, else `basic_salary / Decimal(days_in_month)`. -/
def viewDailyRate (basic : PVal) (days : ℤ) : Option PVal :=
  if days = 0 then some (.pdec 0) else pyDiv basic (.pdec (days : ℚ))

/-- views.py line 328: `house_rent_allowance = basic_salary * Decimal('0.15')`. -/
def viewHouseRentAllowance (basic : PVal) : Option PVal :=
  pyMul basic (.pdec (15 / 100))

/-- views.py line 329: `travel_allowance = basic_salary * Decimal('0.10')`. -/
def viewTravelAllowance (basic : PVal) : Option PVal :=
  pyMul basic (.pdec (1 / 10))

/-- The keyword arguments of `Payroll.objects.create(...)` (views.py lines
332-340): every other field keeps its model default. -/
def bulkRecord (eid : ℕ) (month : String) (year : ℤ)
    (basic hra ta ded : PVal) : Payroll :=
  { employeeId := eid, month := month, year := year, basic_salary := basic,
    house_rent_allowance := hra, travel_allowance := ta,
    other_deductions := ded }

/-- One iteration of the roster loop body after the existence check (views.py
lines 298-343): compute the leave deduction and allowances, then attempt the
creation.  An exception in any of these steps is uncaught (`.error .exc`);
only `IntegrityError` is caught by the surrounding `try`. -/
def processOne (month : String) (year mn days : ℤ) (leaves : List LeaveReq)
    (s : Store) (e : EmployeeRec) : Except CreateErr Store :=
  let basic := e.salary
  let unpaid : ℤ := unpaidLeaveDays leaves e.id mn year
  match viewDailyRate basic days with
  | none => .error .exc
  | some daily =>
    match pyMul daily (.pdec (unpaid : ℚ)) with
    | none => .error .exc
    | some leave_deduction =>
      match viewHouseRentAllowance basic with
      | none => .error .exc
      | some hra =>
        match viewTravelAllowance basic with
        | none => .error .exc
        | some ta => dbCreate s (bulkRecord e.id month year basic hra ta leave_deduction)

/-- The roster loop (views.py lines 294-343): skip employees who already have
a record for the period; catch `IntegrityError` (skip silently); any other
exception aborts the whole request — previously created records stay
persisted (each `create` autocommits), later employees are not processed, and
no count is reported (`none`). -/
def bulkLoop (month : String) (year mn days : ℤ) (leaves : List LeaveReq) :
    List EmployeeRec → Store → ℕ → Store × Option ℕ
  | [], s, c => (s, some c)
  | e :: es, s, c =>
    if existsKeyB s e.id month year then bulkLoop month year mn days leaves es s c
    else
      match processOne month year mn days leaves s e with
      | .ok s1 => bulkLoop month year mn days leaves es s1 (c + 1)
      | .error .integrity => bulkLoop month year mn days leaves es s c
      | .error .exc => (s, none)

/-- `generate_bulk_payroll` for a submitted `(month, year)`: the view first
derives `month_num` by list lookup (a `ValueError` — modelled as the `none`
outcome with the store untouched — if the month is not one of the twelve
choices, which `PayrollCalculationForm` prevents) and `days_in_month`, then
runs the roster loop.  Returns the final store and `some created_count` when
the loop completed, `none` when the request aborted. -/
def generate_bulk_payroll (month : String) (year : ℤ) (leaves : List LeaveReq)
    (roster : List EmployeeRec) (s : Store) : Store × Option ℕ :=
  if MONTH_CHOICES.contains month then
    bulkLoop month year (monthNum month) (daysInMonthZ year (monthNum month)) leaves roster s 0
  else (s, none)

/-! ## Server-side form validation (`PayrollForm`, forms.py lines 33-47)

`PayrollForm` is a `ModelForm` over the `Payroll` fields.  The `month` widget
is a `Select` with `MONTH_CHOICES` and the `year` widget a `NumberInput` with
`min`/`max` attributes, but widget attributes are rendered HTML only — the
model's `month` is a plain `CharField(max_length=20)` without `choices` and
`year` a plain `IntegerField`, so the only server-side checks are: `month`
present and at most 20 characters, `year` an integer, and each
`DecimalField` within its `max_digits`/`decimal_places` shape.  No field
checks a sign or a range. -/

/-- The typed content of a submitted `PayrollForm` (after type coercion). -/
structure PayrollFormInput where
  employeeId : ℕ
  month : String
  year : ℤ
  basic_salary : ℚ
  house_rent_allowance : ℚ := 0
  travel_allowance : ℚ := 0
  medical_allowance : ℚ := 0
  special_allowance : ℚ := 0
  overtime_hours : ℚ := 0
  overtime_rate : ℚ := 0
  professional_tax : ℚ := 200
  income_tax : ℚ := 0
  other_deductions : ℚ := 0
  paid : Bool := false
  payment_date : Option NDate := none
deriving DecidableEq, Repr

/-- Django's `DecimalField(max_digits, decimal_places)` validation: at most
`decPlaces` decimal digits and at most `maxDigits - decPlaces` digits before
the point.  Sign is not constrained. -/
def decimalOk (maxDigits decPlaces : ℕ) (q : ℚ) : Bool :=
  (q * qpow 10 (decPlaces : ℤ)).den == 1 &&
    |q| < qpow 10 ((maxDigits : ℤ) - (decPlaces : ℤ))

/-- `PayrollForm.is_valid()`, server side, with the digit shapes of the
model's fields (models.py lines 48-57). -/
def payrollFormValid (f : PayrollFormInput) : Bool :=
  (1 ≤ f.month.length && f.month.length ≤ 20) &&
  decimalOk 12 2 f.basic_salary &&
  decimalOk 12 2 f.house_rent_allowance &&
  decimalOk 12 2 f.travel_allowance &&
  decimalOk 12 2 f.medical_allowance &&
  decimalOk 12 2 f.special_allowance &&
  decimalOk 6 2 f.overtime_hours &&
  decimalOk 6 2 f.overtime_rate &&
  decimalOk 8 2 f.professional_tax &&
  decimalOk 10 2 f.income_tax &&
  decimalOk 10 2 f.other_deductions

/-- The model instance built from a valid form: `cleaned_data` turns every
`DecimalField` into a `decimal.Decimal`. -/
def payrollOfForm (f : PayrollFormInput) : Payroll :=
  { employeeId := f.employeeId, month := f.month, year := f.year,
    basic_salary := .pdec f.basic_salary,
    house_rent_allowance := .pdec f.house_rent_allowance,
    travel_allowance := .pdec f.travel_allowance,
    medical_allowance := .pdec f.medical_allowance,
    special_allowance := .pdec f.special_allowance,
    overtime_hours := .pdec f.overtime_hours,
    overtime_rate := .pdec f.overtime_rate,
    professional_tax := .pdec f.professional_tax,
    income_tax := .pdec f.income_tax,
    other_deductions := .pdec f.other_deductions,
    paid := f.paid, payment_date := f.payment_date }

/-- The `create_payroll` view (views.py lines 394-407): when the form
validates, a persistence attempt (`payroll.save()`) follows; otherwise the
form is re-rendered and nothing touches the store (`none`). -/
def create_payroll (s : Store) (f : PayrollFormInput) : Option (Except CreateErr Store) :=
  if payrollFormValid f then some (dbCreate s (payrollOfForm f)) else none

/-! ## Derived notions used by the verification -/

/-- The Calculator's net pay, `total_earnings - total_deductions`, exactly the
computation of models.py lines 88-90, as a function of a record's current
fields. -/
def calculatorNet (p : Payroll) : Option PVal :=
  match p.calculate_total_earnings with
  | none => none
  | some te =>
    match p.calculate_total_deductions with
    | none => none
    | some td => pySub te td

/-- Modelled from the spec: the §4.2 store contract order — (a) default
`overtime_rate` to `basic_salary / 200` when it is zero/unset, *then*
(b) recompute and overwrite `net_salary` — stated for comparison with the
source's `Payroll.save`, which performs these steps in the opposite order. -/
def Payroll.saveSpecOrdered (p : Payroll) : Option Payroll :=
  let step1 : Option Payroll :=
    if p.overtime_rate.val = (0 : ℚ) then
      match pyDiv p.basic_salary (.pint 200) with
      | none => none
      | some r => some { p with overtime_rate := r }
    else some p
  match step1 with
  | none => none
  | some p1 =>
    match p1.calculate_total_earnings with
    | none => none
    | some te =>
      match p1.calculate_total_deductions with
      | none => none
      | some td =>
        match pySub te td with
        | none => none
        | some ns => some { p1 with net_salary := ns }

/-- The store respects the uniqueness constraint: no two rows share an
`(employee, month, year)` key. -/
def keyUniqueB : Store → Bool
  | [] => true
  | r :: rs => !(rs.any fun t => sameKeyB r t) && keyUniqueB rs

/-! ## Concrete instances used by the claims -/

/-- An all-`int` record (fields set in code): basic 20000, 2 overtime hours,
`overtime_rate` unset, every other monetary field at its default. -/
def rOvertime : Payroll :=
  { employeeId := 1, month := "April", year := 2025,
    basic_salary := .pint 20000, overtime_hours := .pint 2 }

/-- The spec's negative-net edge case with `Decimal`-typed fields, as a
form/database-loaded record carries them: basic `Decimal('0')`,
other_deductions `Decimal('500')`, remaining monetary fields at their
defaults as `Decimal`s. -/
def rZeroDec : Payroll :=
  { employeeId := 1, month := "April", year := 2025,
    basic_salary := .pdec 0, house_rent_allowance := .pdec 0,
    travel_allowance := .pdec 0, medical_allowance := .pdec 0,
    special_allowance := .pdec 0, overtime_hours := .pdec 0,
    overtime_rate := .pdec 0, professional_tax := .pdec 200,
    income_tax := .pdec 0, other_deductions := .pdec 500 }

/-- The same record with plain-`int` fields. -/
def rZeroInt : Payroll :=
  { employeeId := 1, month := "April", year := 2025,
    basic_salary := .pint 0, other_deductions := .pint 500 }

/-- A record with `basic_salary = Decimal('30000')` (above the PF cap). -/
def rDec30000 : Payroll :=
  { employeeId := 2, month := "April", year := 2025, basic_salary := .pdec 30000 }

/-- A record with `basic_salary = 11111` as a plain `int` (below the PF cap). -/
def rInt11111 : Payroll :=
  { employeeId := 3, month := "April", year := 2025, basic_salary := .pint 11111 }

/-- A record with `basic_salary = Decimal('11111')` (below the PF cap). -/
def rDec11111 : Payroll :=
  { employeeId := 3, month := "April", year := 2025, basic_salary := .pdec 11111 }

/-- An employee with base salary `Decimal('21000')`. -/
def empA : EmployeeRec := { id := 1, salary := .pdec 21000 }

/-- An employee with base salary `Decimal('30000')`. -/
def empB : EmployeeRec := { id := 2, salary := .pdec 30000 }

/-- One `Approved` leave of employee 1 spanning 2 days inclusively
(2025-04-07 to 2025-04-08), start date in April 2025 (30 days). -/
def aprilLeave : LeaveReq :=
  { employeeId := 1, start_date := ⟨2025, 4, 7⟩, end_date := ⟨2025, 4, 8⟩,
    status := "Approved" }

/-- A negative-salary, out-of-choice-month, out-of-widget-range-year form
submission. -/
def fBadForm : PayrollFormInput :=
  { employeeId := 1, month := "Smarch", year := 1999, basic_salary := -100 }

/-! ## Verification -/

section Verification

set_option allowUnsafeReducibility true
attribute [local semireducible] Rat.mul Rat.add Rat.sub Rat.inv
set_option maxRecDepth 30000

/-- `Payroll.save` unravelled: the persisted `net_salary` is the Calculator's
net of the *entry* fields, and only afterwards is a zero `overtime_rate`
replaced by `basic_salary / 200`. -/
theorem save_eq (p : Payroll) :
    Payroll.save p =
      (calculatorNet p).bind fun ns =>
        if p.overtime_rate.val = (0 : ℚ) then
          (pyDiv p.basic_salary (.pint 200)).map
            fun r => { p with net_salary := ns, overtime_rate := r }
        else some { p with net_salary := ns } := by
  unfold Payroll.save calculatorNet
  cases hte : p.calculate_total_earnings with
  | none => rfl
  | some te =>
    dsimp only []
    cases htd : p.calculate_total_deductions with
    | none => rfl
    | some td =>
      dsimp only []
      cases hns : pySub te td with
      | none => rfl
      | some ns =>
        dsimp only [Option.bind]
        by_cases hov : p.overtime_rate.val = (0 : ℚ)
        · simp only [if_pos hov]
          cases pyDiv p.basic_salary (.pint 200) <;> rfl
        · simp only [if_neg hov]

theorem save_key {p p1 : Payroll} (h : Payroll.save p = some p1) :
    p1.employeeId = p.employeeId ∧ p1.month = p.month ∧ p1.year = p.year := by
  rw [save_eq] at h
  cases hn : calculatorNet p with
  | none => rw [hn] at h; exact Option.noConfusion h
  | some ns =>
    rw [hn] at h
    dsimp at h
    split at h
    · cases hdiv : pyDiv p.basic_salary (.pint 200) with
      | none => rw [hdiv] at h; exact Option.noConfusion h
      | some r =>
        rw [hdiv] at h
        simp only [Option.map_some', Option.some.injEq] at h
        subst h; exact ⟨rfl, rfl, rfl⟩
    · simp only [Option.some.injEq] at h
      subst h; exact ⟨rfl, rfl, rfl⟩

/-- A record whose `net_salary` derivation raises is never persisted. -/
theorem save_none {p : Payroll} (h : p.calculate_total_deductions = none) :
    Payroll.save p = none := by
  unfold Payroll.save
  rw [h]
  cases p.calculate_total_earnings <;> rfl

theorem dbCreate_exc {p : Payroll} (s : Store) (h : Payroll.save p = none) :
    dbCreate s p = .error .exc := by
  unfold dbCreate
  rw [h]

theorem sameKeyB_trans_right {a r p : Payroll}
    (h1 : sameKeyB a p = true) (h2 : sameKeyB r p = true) : sameKeyB a r = true := by
  simp only [sameKeyB, Bool.and_eq_true, beq_iff_eq] at *
  exact ⟨⟨h1.1.1.trans h2.1.1.symm, h1.1.2.trans h2.1.2.symm⟩, h1.2.trans h2.2.symm⟩

theorem countP_key_eq_one {s : Store} {q p : Payroll}
    (hu : keyUniqueB s = true) (hq : q ∈ s) (hk : sameKeyB q p = true) :
    s.countP (fun r => sameKeyB r p) = 1 := by
  induction s with
  | nil => cases hq
  | cons a t ih =>
    have hu' : (t.any fun r => sameKeyB a r) = false ∧ keyUniqueB t = true := by
      simpa [keyUniqueB] using hu
    rcases List.mem_cons.mp hq with rfl | hqt
    · have ht : t.countP (fun r => sameKeyB r p) = 0 := by
        rw [List.countP_eq_zero]
        intro r hr hrp
        have : (t.any fun r' => sameKeyB q r') = true :=
          List.any_eq_true.mpr ⟨r, hr, sameKeyB_trans_right hk hrp⟩
        simp [hu'.1] at this
      simp [List.countP_cons, hk, ht]
    · have ha : sameKeyB a p = false := by
        by_contra hab
        have hap : sameKeyB a p = true := by
          cases h : sameKeyB a p with
          | true => rfl
          | false => exact absurd h hab
        have : (t.any fun r' => sameKeyB a r') = true :=
          List.any_eq_true.mpr ⟨q, hqt, sameKeyB_trans_right hap hk⟩
        simp [hu'.1] at this
      simp [List.countP_cons, ha, ih hu'.2 hqt]

theorem existsKeyB_of_mem {s : Store} {q : Payroll} {eid : ℕ} {m : String} {y : ℤ}
    (hq : q ∈ s) (h1 : q.employeeId = eid) (h2 : q.month = m) (h3 : q.year = y) :
    existsKeyB s eid m y = true :=
  List.any_eq_true.mpr ⟨q, hq, by simp [h1, h2, h3]⟩

/-- The deductions of a record created by the bulk generator always raise:
whatever the capped PF base is, `employee_pf` is either a `float` (so adding
the `Decimal` `other_deductions` raises `TypeError`) or the PF multiplication
itself already raised on a `Decimal` base times the `float` rate. -/
theorem bulk_deductions_none (eid : ℕ) (month : String) (year : ℤ)
    (basic hra ta : PVal) (x : ℚ) :
    (bulkRecord eid month year basic hra ta (.pdec x)).calculate_total_deductions
      = none := by
  unfold Payroll.calculate_total_deductions Payroll.calculate_epf bulkRecord
  dsimp
  cases pyMin basic (.pint 15000) <;> rfl

theorem pyMul_pdec_right_shape {a : PVal} {u : ℚ} {v : PVal}
    (h : pyMul a (.pdec u) = some v) : ∃ d, v = .pdec d := by
  cases a <;> simp [pyMul] at h <;> exact ⟨_, h.symm⟩

theorem processOne_exc (month : String) (year mn days : ℤ) (leaves : List LeaveReq)
    (s : Store) (e : EmployeeRec) :
    processOne month year mn days leaves s e = .error .exc := by
  unfold processOne
  dsimp only []
  cases hdy : viewDailyRate e.salary days with
  | none => rfl
  | some daily =>
    dsimp only []
    cases hml : pyMul daily (.pdec ((unpaidLeaveDays leaves e.id mn year : ℤ) : ℚ)) with
    | none => rfl
    | some ded =>
      dsimp only []
      cases hh : viewHouseRentAllowance e.salary with
      | none => rfl
      | some hra =>
        dsimp only []
        cases ht : viewTravelAllowance e.salary with
        | none => rfl
        | some ta =>
          dsimp only []
          obtain ⟨d, rfl⟩ := pyMul_pdec_right_shape hml
          exact dbCreate_exc s (save_none (bulk_deductions_none _ _ _ _ _ _ _))

theorem bulkLoop_fst (month : String) (year mn days : ℤ) (leaves : List LeaveReq) :
    ∀ (es : List EmployeeRec) (s : Store) (c : ℕ),
      (bulkLoop month year mn days leaves es s c).1 = s := by
  intro es
  induction es with
  | nil => intro s c; rfl
  | cons e es ih =>
    intro s c
    by_cases hk : existsKeyB s e.id month year <;>
      simp [bulkLoop, hk, processOne_exc, ih]

theorem generate_bulk_payroll_fst (month : String) (year : ℤ)
    (leaves : List LeaveReq) (roster : List EmployeeRec) (s : Store) :
    (generate_bulk_payroll month year leaves roster s).1 = s := by
  unfold generate_bulk_payroll
  split
  · exact bulkLoop_fst ..
  · rfl

/-- When a save completes, the persisted `net_salary` is the Calculator's net
of the fields as they were at entry to `save`. -/
theorem save_map_net (p : Payroll) (h : (Payroll.save p).isSome = true) :
    (Payroll.save p).map Payroll.net_salary = calculatorNet p := by
  rw [save_eq] at h ⊢
  cases hn : calculatorNet p with
  | none =>
    try rw [hn] at h
    exact Bool.noConfusion h
  | some ns =>
    try rw [hn] at h
    dsimp at h ⊢
    by_cases hov : p.overtime_rate.val = (0 : ℚ)
    · rw [if_pos hov] at h ⊢
      cases hdiv : pyDiv p.basic_salary (.pint 200) with
      | none =>
        try rw [hdiv] at h
        exact Bool.noConfusion h
      | some r => rfl
    · rw [if_neg hov]; rfl

/-- When a save completes and `overtime_rate` was zero/unset at entry, the
persisted `overtime_rate` is `basic_salary / 200`. -/
theorem save_rate_defaulted (p : Payroll) (h : (Payroll.save p).isSome = true)
    (hov : p.overtime_rate.val = (0 : ℚ)) :
    (Payroll.save p).map Payroll.overtime_rate = pyDiv p.basic_salary (.pint 200) := by
  rw [save_eq] at h ⊢
  cases hn : calculatorNet p with
  | none =>
    try rw [hn] at h
    exact Bool.noConfusion h
  | some ns =>
    try rw [hn] at h
    dsimp at h ⊢
    rw [if_pos hov] at h ⊢
    cases hdiv : pyDiv p.basic_salary (.pint 200) with
    | none =>
      try rw [hdiv] at h
      exact Bool.noConfusion h
    | some r => rfl

/-- When a save completes and `overtime_rate` was nonzero at entry, it is
persisted unchanged. -/
theorem save_rate_kept (p : Payroll) (hov : ¬ p.overtime_rate.val = (0 : ℚ)) :
    (Payroll.save p).map Payroll.overtime_rate =
      (Payroll.save p).map fun _ => p.overtime_rate := by
  rw [save_eq]
  cases hn : calculatorNet p with
  | none => rfl
  | some ns =>
    dsimp
    rw [if_neg hov]
    rfl

theorem dbCreate_dup {p p1 : Payroll} (s : Store)
    (hsv : Payroll.save p = some p1)
    (hex : existsKeyB s p1.employeeId p1.month p1.year = true) :
    dbCreate s p = .error .integrity := by
  unfold dbCreate
  rw [hsv]
  simp [hex]

/-! ## The claims -/

/-- C1, counterexample.  The claim says the persisted `net_salary` always
equals `total_earnings - total_deductions` recomputed from the record's
fields *as persisted*, including the possibly-defaulted `overtime_rate`.  For
the all-`int` record `rOvertime` (basic 20000, 2 overtime hours,
`overtime_rate` unset) the save completes and persists
`overtime_rate = 100.0` and `net_salary = 18000.0`, but the recomputation
from the persisted fields gives `18200.0` (it now includes
`2 × 100.0` of overtime pay): the persisted `net_salary` is stale. -/
theorem C1_counterexample :
    (Payroll.save rOvertime).isSome = true ∧
    (Payroll.save rOvertime).bind calculatorNet
      ≠ (Payroll.save rOvertime).map Payroll.net_salary := by decide

/-- C1, amended: after every save that completes, the persisted `net_salary`
equals `total_earnings - total_deductions` computed from the record's fields
as they were at *entry* to the save — that is, with the pre-default
`overtime_rate` — not from the fields as persisted; when `overtime_rate` is
defaulted during the save and `overtime_hours ≠ 0`, the stored `net_salary`
is stale relative to the stored inputs. -/
theorem C1_net_from_entry_fields (p : Payroll)
    (h : (Payroll.save p).isSome = true) :
    (Payroll.save p).map Payroll.net_salary = calculatorNet p :=
  save_map_net p h

theorem C1_net_from_entry_fields_witness :
    (Payroll.save rOvertime).isSome = true ∧
    (Payroll.save rOvertime).map Payroll.net_salary = calculatorNet rOvertime :=
  ⟨by decide, C1_net_from_entry_fields rOvertime (by decide)⟩

/-- C2, counterexample.  The claim says the store first defaults
`overtime_rate` to `basic_salary/200` and only then recomputes `net_salary`,
in that order.  `Payroll.saveSpecOrdered` is that claimed order, modelled
from the spec's words; on the record `rOvertime` it would persist
`net_salary = 18200.0`, while the source's `save` persists `18000.0` — the
code performs the two steps in the opposite order. -/
theorem C2_counterexample :
    (Payroll.save rOvertime).map Payroll.net_salary = some (.pfloat 18000) ∧
    (Payroll.saveSpecOrdered rOvertime).map Payroll.net_salary = some (.pfloat 18200) ∧
    Payroll.save rOvertime ≠ Payroll.saveSpecOrdered rOvertime := by decide

/-- C2, amended: on every create or update that completes, the store first
recomputes and overwrites `net_salary` from the fields as given — with the
entry (possibly zero) `overtime_rate` — and only then defaults
`overtime_rate` to `basic_salary / 200` when it was zero/unset: the reverse
of the claimed order, so the defaulted rate is not reflected in the
`net_salary` persisted by that same save. -/
theorem C2_actual_order (p : Payroll) (h : (Payroll.save p).isSome = true) :
    (Payroll.save p).map Payroll.net_salary = calculatorNet p ∧
    (p.overtime_rate.val = (0 : ℚ) →
      (Payroll.save p).map Payroll.overtime_rate = pyDiv p.basic_salary (.pint 200)) ∧
    (¬ p.overtime_rate.val = (0 : ℚ) →
      (Payroll.save p).map Payroll.overtime_rate =
        (Payroll.save p).map fun _ => p.overtime_rate) :=
  ⟨save_map_net p h,
   fun hov => save_rate_defaulted p h hov,
   fun hov => save_rate_kept p hov⟩

theorem C2_actual_order_witness :
    (Payroll.save rOvertime).map Payroll.net_salary = calculatorNet rOvertime ∧
    (rOvertime.overtime_rate.val = (0 : ℚ) →
      (Payroll.save rOvertime).map Payroll.overtime_rate
        = pyDiv rOvertime.basic_salary (.pint 200)) ∧
    (¬ rOvertime.overtime_rate.val = (0 : ℚ) →
      (Payroll.save rOvertime).map Payroll.overtime_rate =
        (Payroll.save rOvertime).map fun _ => rOvertime.overtime_rate) :=
  C2_actual_order rOvertime (by decide)

/-- C3, counterexample.  For the employee with base salary `Decimal('21000')`
and one Approved leave stored as the 2-day inclusive span 2025-04-07 to
2025-04-08 in the 30-day month April 2025, the generator counts
`end_date - start_date = 1` unpaid day, so the computed leave deduction is
`700`, not the claimed `1400`; and no `PayrollRecord` is created at all — the
run aborts (`none`) with the store still empty, because the save raises
`TypeError`. -/
theorem C3_counterexample :
    unpaidLeaveDays [aprilLeave] 1 (monthNum "April") 2025 = 1 ∧
    (viewDailyRate empA.salary 30).bind
        (fun d => pyMul d (.pdec ((unpaidLeaveDays [aprilLeave] 1 4 2025 : ℤ) : ℚ)))
      = some (.pdec 700) ∧
    generate_bulk_payroll "April" 2025 [aprilLeave] [empA] [] = ([], none) := by decide

/-- C3, amended: for an employee with base salary 21000 and one Approved
leave stored as a 2-day inclusive span starting in the 30-day target month,
the generator computes `daily_rate = 700`, counts `end_date - start_date = 1`
unpaid day, hence a leave deduction of `700` (not 1400) destined for
`other_deductions`, `house_rent_allowance = 3150` and
`travel_allowance = 2100` — and then creates no record: the creation raises
`TypeError` in the PF computation and the bulk run aborts with the store
unchanged. -/
theorem C3_bulk_example :
    monthNum "April" = 4 ∧
    daysInMonthZ 2025 4 = 30 ∧
    unpaidLeaveDays [aprilLeave] 1 4 2025 = 1 ∧
    viewDailyRate empA.salary 30 = some (.pdec 700) ∧
    pyMul (.pdec 700) (.pdec ((1 : ℤ) : ℚ)) = some (.pdec 700) ∧
    viewHouseRentAllowance empA.salary = some (.pdec 3150) ∧
    viewTravelAllowance empA.salary = some (.pdec 2100) ∧
    generate_bulk_payroll "April" 2025 [aprilLeave] [empA] [] = ([], none) := by decide

/-- C4: evaluation at the failing input.  With one employee (salary
`Decimal('21000')`) and no existing records, the first bulk run for April
2025 aborts with `TypeError` and creates nothing; after it no record exists
for the employee, so the second run cannot "skip because a record already
exists" — it aborts identically.  (The claim's scenario — first run
populates, second run skips all — is unreachable: a run never creates any
record.) -/
theorem C4_rerun_failing_input :
    generate_bulk_payroll "April" 2025 [] [empA] [] = ([], none) ∧
    existsKeyB (generate_bulk_payroll "April" 2025 [] [empA] []).1 1 "April" 2025 = false ∧
    generate_bulk_payroll "April" 2025 [] [empA]
        (generate_bulk_payroll "April" 2025 [] [empA] []).1 = ([], none) := by decide

/-- C5: creating a second `PayrollRecord` whose `(employee, month, year)` key
already has a persisted record never succeeds and has no side effects — the
store keeps exactly one record for that key, unchanged; and whenever the
save-time computation completes (so the attempt reaches the database), the
failure is precisely the uniqueness violation (`IntegrityError`). -/
theorem C5_duplicate_create_rejected (s : Store) (q p : Payroll)
    (hu : keyUniqueB s = true) (hq : q ∈ s) (hk : sameKeyB q p = true) :
    (∀ s1, dbCreate s p ≠ .ok s1) ∧
    ((Payroll.save p).isSome = true → dbCreate s p = .error .integrity) ∧
    s.countP (fun r => sameKeyB r p) = 1 := by
  have hcomp : ∀ p1, Payroll.save p = some p1 →
      dbCreate s p = .error .integrity := by
    intro p1 hsv
    obtain ⟨he, hm, hy⟩ := save_key hsv
    have hk' : q.employeeId = p.employeeId ∧ q.month = p.month ∧ q.year = p.year := by
      simpa [sameKeyB, Bool.and_eq_true, beq_iff_eq, and_assoc] using hk
    exact dbCreate_dup s hsv
      (existsKeyB_of_mem hq (he ▸ hk'.1) (hm ▸ hk'.2.1) (hy ▸ hk'.2.2))
  refine ⟨?_, ?_, countP_key_eq_one hu hq hk⟩
  · intro s1 hcontra
    cases hsv : Payroll.save p with
    | none => rw [dbCreate_exc s hsv] at hcontra; exact Except.noConfusion hcontra
    | some p1 => rw [hcomp p1 hsv] at hcontra; exact Except.noConfusion hcontra
  · intro hs
    cases hsv : Payroll.save p with
    | none => rw [hsv] at hs; exact Bool.noConfusion hs
    | some p1 => exact hcomp p1 hsv

theorem C5_duplicate_create_rejected_witness :
    (∀ s1, dbCreate [rOvertime] rOvertime ≠ .ok s1) ∧
    ((Payroll.save rOvertime).isSome = true →
      dbCreate [rOvertime] rOvertime = .error .integrity) ∧
    List.countP (fun r => sameKeyB r rOvertime) [rOvertime] = 1 :=
  C5_duplicate_create_rejected [rOvertime] rOvertime rOvertime
    (by decide) (by simp) (by decide)

/-- C6: evaluation at the failing inputs.  `calculate_epf` caps the base at
the `int` literal 15000, but multiplies it by the binary `float` constants
`0.12`/`0.133` (models.py lines 42-43) — not exact decimal arithmetic: for a
`Decimal` basic below the cap (`Decimal('11111')`) it raises `TypeError`
(`Decimal × float`); for the `int` 11111 it returns a `float` whose value is
`11111 * float(0.12) ≠ 1333.32` exactly.  For `basic_salary = 30000` the
capped base is the `int` 15000 and the float products happen to round to
exactly `1800.0` and `1995.0`, so the two claimed values do hold there. -/
theorem C6_pf_float_not_decimal :
    pyMin rDec30000.basic_salary (.pint 15000) = .pint 15000 ∧
    Payroll.calculate_epf rDec30000 = some (.pfloat 1800, .pfloat 1995) ∧
    Payroll.calculate_epf rDec11111 = none ∧
    (Payroll.calculate_epf rInt11111).map (fun pr => pr.1.isDec) = some false ∧
    (Payroll.calculate_epf rInt11111).map (fun pr => pr.1.val)
      ≠ some (133332 / 100 : ℚ) := by decide

/-- C7: evaluation at the failing input.  For the record with
`basic_salary = Decimal('0')`, `other_deductions = Decimal('500')` and the
other monetary fields at their defaults as `Decimal`s, saving does *not*
succeed: `calculate_epf` raises `TypeError` (`Decimal(0) × float 0.12`) and
nothing is persisted.  With plain-`int` fields the save does complete and
stores `net_salary = -700.0 = -(0 + 200 + 500)`, unclamped — the claimed
arithmetic, which the `Decimal`-typed path never reaches. -/
theorem C7_negative_net_typeerror :
    Payroll.save rZeroDec = none ∧
    (Payroll.save rZeroInt).map Payroll.net_salary = some (.pfloat (-700)) := by decide

/-- C8, counterexample.  A create request with a negative `basic_salary`
(-100), a month outside the twelve choices ("Smarch") and a year outside the
widget's 2020-2030 range (1999) passes `PayrollForm` validation and proceeds
to a persistence attempt — it is not rejected as invalid input. -/
theorem C8_counterexample :
    payrollFormValid fBadForm = true ∧
    (create_payroll [] fBadForm).isSome = true := by decide

/-- C8, amended: the server-side validation never rejects a negative monetary
field or an out-of-range month/year — the month choices and the year
`min`/`max` live only in HTML widget attributes, and the decimal checks
constrain digit shape, not sign.  Formally, validity is invariant under
negating monetary fields and replacing the year arbitrarily, so such
requests pass validation and reach the persistence attempt. -/
theorem C8_no_sign_or_range_check (f : PayrollFormInput) (y : ℤ) :
    payrollFormValid
        { f with year := y, basic_salary := -f.basic_salary,
                 income_tax := -f.income_tax,
                 other_deductions := -f.other_deductions }
      = payrollFormValid f := by
  simp only [payrollFormValid, decimalOk, neg_mul, abs_neg, Rat.neg_den]

/-- C9: evaluation at the failing input.  With two employees (salaries
`Decimal('21000')` and `Decimal('30000')`) and no existing records, creating
the first employee's record raises `TypeError`; only `IntegrityError` is
caught, so the whole batch aborts: the first employee is not "skipped
silently", the second is never processed, and no `created_count` is
reported. -/
theorem C9_batch_aborts :
    generate_bulk_payroll "April" 2025 [] [empA, empB] [] = ([], none) := by decide

/-- C10: `generate_bulk_payroll` only adds records — every record persisted
before a run is still persisted after it, with all fields unchanged, and any
record present afterwards that was not present before would have a key that
was free beforehand.  (In the current code the store is in fact always left
exactly as it was: every creation attempt raises before the insert.) -/
theorem C10_only_adds (month : String) (year : ℤ) (leaves : List LeaveReq)
    (roster : List EmployeeRec) (s : Store) :
    (∀ r ∈ s, r ∈ (generate_bulk_payroll month year leaves roster s).1) ∧
    (∀ r ∈ (generate_bulk_payroll month year leaves roster s).1,
      r ∈ s ∨ existsKeyB s r.employeeId r.month r.year = false) := by
  rw [generate_bulk_payroll_fst]
  exact ⟨fun r hr => hr, fun r hr => .inl hr⟩

end Verification

end SmartHR
